import Mathlib

/-
Verification of the ResQride frontend's mechanic-assignment workflow.

The definitions below are a shallow embedding of the TypeScript source:
  - src/pages/AdminDashboard.tsx  (admin bulk load, nearest-mechanic
    resolution, assignment commit, per-row action gating)
  - src/pages/Dashboard.tsx       (customer action cell: pay / rate gating)
  - src/pages/MechanicDashboard.tsx (mechanic Done gating)
  - src/api/client.ts             (response interceptor, 401 handling)
  - src/store/authStore.ts        (session state, logout transition)

Numbers that are TypeScript `number`s carrying fractional values
(distances, amounts, ratings) are modelled as rationals; integral ids as
Int.  Promises are modelled by explicit result values: a backend call
yields `Except Unit (Option (List A))` where `.error` is a rejected
promise, `.ok none` a fulfilled response whose body is not an array
(the code guards every list with Array.isArray), and `.ok (some l)` an
array body.
-/

/-- Mechanic record as used by AdminDashboard.tsx (interface Mechanic). -/
structure Mechanic where
  id : Int
  name : String
  skillType : Option String
  rating : Option ℚ
  distance : Option ℚ
deriving DecidableEq, Repr

/-- Request row as used by AdminDashboard.tsx (interface RequestItem). -/
structure RequestItem where
  requestId : Int
  location : String
  latitude : Option ℚ
  longitude : Option ℚ
  problemType : String
  amount : ℚ
  status : String
  mechanic : Option Mechanic
  mechanicId : Option Int
  mechanicName : Option String
deriving DecidableEq, Repr

/-- mapProblemTypeToSkill, AdminDashboard.tsx lines 49-59. -/
def mapProblemTypeToSkill (problemType : String) : String :=
  match problemType with
  | "TOWING" => "TOWING"
  | "TIRE_CHANGE" => "TIRE_SPECIALIST"
  | "BATTERY" => "BATTERY_EXPERT"
  | "LOCKOUT" => "LOCKSMITH"
  | "MECHANIC" => "GENERAL_MECHANIC"
  | "FUEL" => "GENERAL_MECHANIC"
  | _ => problemType

/-- The distance/id comparator passed to Array.prototype.sort in
fetchNearestMechanics (AdminDashboard.tsx lines 161-173 and the identical
copy at lines 193-203).  `a.distance == null` catches both null and
undefined, hence `none`.  The JavaScript result is a number; negative
means a before b. -/
def mechanicCmp (a b : Mechanic) : ℚ :=
  match a.distance, b.distance with
  | none, none => (a.id : ℚ) - b.id
  | none, some _ => 1
  | some _, none => -1
  | some da, some db =>
    if |da - db| < 1/100 then (a.id : ℚ) - b.id
    else da - db

/-- Comparator used for the request lists: `(a, b) => b.requestId - a.requestId`
(AdminDashboard.tsx line 78). -/
def reqIdDescCmp (a b : RequestItem) : ℚ :=
  (b.requestId : ℚ) - a.requestId

/-- One insertion step of a stable sort: `x` originally precedes every
element of the list, so it stays before `y` exactly when the comparator
does not order `y` strictly before `x`. -/
def jsInsert {α : Type} (cmp : α → α → ℚ) (x : α) : List α → List α
  | [] => [x]
  | y :: l => if cmp x y ≤ 0 then x :: y :: l else y :: jsInsert cmp x l

/-- Stable sort modelling Array.prototype.sort.  ECMAScript requires a
stable, comparator-consistent permutation whenever the comparator itself
is consistent; on the inputs the theorems below evaluate, the comparator
restricted to the input is consistent, so the sorted result is the one
any conforming engine produces. -/
def jsSort {α : Type} (cmp : α → α → ℚ) : List α → List α
  | [] => []
  | x :: l => jsInsert cmp x (jsSort cmp l)

/-- JavaScript numeric truthiness for an optional number:
null/undefined and 0 are falsy. -/
def truthyQ : Option ℚ → Bool
  | none => false
  | some q => q != 0

/-- The backend endpoints the admin dashboard talks to, with the query
parameters that identify a concrete call. -/
inductive Endpoint where
  | adminRequests
  | allAvailable
  | skillOnly (skill : String)
  | byCenter (skill : String) (lat lng : ℚ)
  | plainNearest (skill : String) (lat lng : ℚ)
deriving DecidableEq, Repr

/-- One fixed behaviour of the backend during a load: what each endpoint
returns.  `.error ()` is a rejected promise; `.ok none` a body that is
not an array; `.ok (some l)` an array body. -/
structure AdminEnv where
  adminRequests : Except Unit (Option (List RequestItem))
  allAvailable : Except Unit (Option (List Mechanic))
  skillOnly : String → Except Unit (Option (List Mechanic))
  byCenter : String → ℚ → ℚ → Except Unit (Option (List Mechanic))
  plainNearest : String → ℚ → ℚ → Except Unit (Option (List Mechanic))

/-- The key under which fetchNearestMechanics stores its result:
the template literal `${request.problemType}_${request.requestId}`
(AdminDashboard.tsx line 177). -/
def skillKey (r : RequestItem) : String :=
  r.problemType ++ "_" ++ toString r.requestId

/-- fetchNearestMechanics, AdminDashboard.tsx lines 143-214.  Returns the
endpoints queried, in order, and the skilledMechanics entry written, if
any.  The guard `if (!request.latitude || !request.longitude) return;`
uses JavaScript truthiness, so a coordinate of 0 also aborts.  A
fulfilled by-center response terminates the function whether or not its
body is an array; only a rejected by-center promise reaches the catch
block that issues the plain-nearest call. -/
def fetchNearestMechanics (env : AdminEnv) (r : RequestItem) :
    List Endpoint × Option (String × List Mechanic) :=
  if truthyQ r.latitude && truthyQ r.longitude then
    match r.latitude, r.longitude with
    | some lat, some lng =>
      let skill := mapProblemTypeToSkill r.problemType
      match env.byCenter skill lat lng with
      | .ok (some l) =>
        ([.byCenter skill lat lng], some (skillKey r, jsSort mechanicCmp l))
      | .ok none => ([.byCenter skill lat lng], none)
      | .error _ =>
        match env.plainNearest skill lat lng with
        | .ok (some l) =>
          ([.byCenter skill lat lng, .plainNearest skill lat lng],
            some (skillKey r, jsSort mechanicCmp l))
        | .ok none =>
          ([.byCenter skill lat lng, .plainNearest skill lat lng], none)
        | .error _ =>
          ([.byCenter skill lat lng, .plainNearest skill lat lng], none)
    | _, _ => ([], none)
  else ([], none)

/-- First-occurrence deduplication, modelling
`Array.from(new Set(xs))` (AdminDashboard.tsx line 86): a JavaScript Set
iterates in insertion order. -/
def jsUnique (l : List String) : List String :=
  l.foldl (fun acc x => if x ∈ acc then acc else acc ++ [x]) []

/-- Outcome of the admin bulk load: either the whole view is replaced by
the retry page (state `error` set, lines 283-298), or the page renders
with the three pieces of fetched state. -/
inductive AdminLoad where
  | errorPage (msg : String)
  | page (requests : List RequestItem) (mechanics : List Mechanic)
      (skilled : List (String × List Mechanic))
deriving DecidableEq, Repr

/-- fetchData, AdminDashboard.tsx lines 66-138.  Returns the endpoints
called, in order, and the resulting view state.

Faithfulness notes, keyed to the source:
  - line 69: `Promise.all` issues both gets; if `/admin/requests`
    rejects the whole load rejects into the outer catch (error page),
    but both calls were already issued.
  - lines 71-75: the mechanics get carries its own `.catch` returning
    `{ data: [] }`, so its failure never aborts the batch.
  - line 78: a non-array requests body degrades to `[]`.
  - line 91: `if (!type) return;` skips the empty-string problem type.
  - line 123: the per-skill get also carries `.catch(() => ({data: []}))`,
    so that await never throws; consequently the enclosing catch at
    lines 125-129 (client-side filtering of availableMechanics) is
    unreachable and the skill map entry is always the response array,
    defaulted to []. -/
def fetchData (env : AdminEnv) : List Endpoint × AdminLoad :=
  match env.adminRequests with
  | .error _ =>
    ([.adminRequests, .allAvailable], .errorPage "Failed to load admin data")
  | .ok rdata =>
    let sorted := jsSort reqIdDescCmp (rdata.getD [])
    let mechs := match env.allAvailable with
      | .ok (some l) => l
      | _ => []
    let types := (jsUnique (sorted.map (·.problemType))).filter (· ≠ "")
    let skillCalls := types.map (fun t => Endpoint.skillOnly (mapProblemTypeToSkill t))
    let skilled := types.map (fun t =>
      (t, match env.skillOnly (mapProblemTypeToSkill t) with
        | .ok (some l) => l
        | _ => []))
    ([.adminRequests, .allAvailable] ++ skillCalls, .page sorted mechs skilled)

/-- The endpoints touched by loading the page and then resolving one
request row (the admin opening that row's mechanic dropdown). -/
def adminResolveCalls (env : AdminEnv) (r : RequestItem) : List Endpoint :=
  (fetchData env).1 ++ (fetchNearestMechanics env r).1

/-- An assignment PATCH that has been issued but whose promise has not
yet settled.  React handlers close over the state variables of the
render that created them, so the continuation after the await uses the
`requests` and `mechanics` values captured when the click happened, not
the values current when the promise settles. -/
structure PendingCall where
  rid : Int
  mid : Int
  captured : List RequestItem
  capturedPool : List Mechanic
deriving DecidableEq, Repr

/-- The AdminDashboard component state relevant to assignment, plus a
log of issued submissions (`submissions`) and of still-unsettled
promises (`pending`). -/
structure AdminState where
  requests : List RequestItem
  mechanics : List Mechanic
  selection : List (Int × Int)
  assigningId : Option Int
  error : Option String
  pending : List PendingCall
  submissions : List (Int × Int)
deriving DecidableEq, Repr

/-- `selection[requestId]` (a Record<number, number> lookup). -/
def selValue (s : AdminState) (rid : Int) : Option Int :=
  s.selection.lookup rid

/-- The synchronous prefix of assignRequest, AdminDashboard.tsx lines
216-223: read the selection, return early if it is falsy (absent, or
the sentinel 0 produced by the empty dropdown option), otherwise set the
in-flight marker and issue the PATCH.  The continuation is
`settleAssign` below. -/
def assignRequestStart (s : AdminState) (rid : Int) : AdminState :=
  match selValue s rid with
  | none => s
  | some mid =>
    if mid = 0 then s
    else
      { s with assigningId := some rid,
               pending := s.pending ++ [⟨rid, mid, s.requests, s.mechanics⟩],
               submissions := s.submissions ++ [(rid, mid)] }

/-- The success-path list update of assignRequest, AdminDashboard.tsx
lines 224-228: map over the list, replacing every row whose requestId
matches with a copy holding the mechanic found in the pool (or none)
and status IN_PROGRESS. -/
def applyAssignSuccess (reqs : List RequestItem) (pool : List Mechanic)
    (rid mid : Int) : List RequestItem :=
  reqs.map (fun r =>
    if r.requestId == rid then
      { r with mechanic := pool.find? (fun m => m.id == mid),
               status := "IN_PROGRESS" }
    else r)

/-- The continuation of assignRequest after the PATCH settles
(AdminDashboard.tsx lines 224-234): on fulfilment apply the captured
list update, on rejection set the error banner; the finally block
clears the in-flight marker in both cases.  `i` selects which pending
promise settles; an out-of-range index is a stutter step. -/
def settleAssign (s : AdminState) (i : Nat) (success : Bool) : AdminState :=
  match s.pending[i]? with
  | none => s
  | some p =>
    let base := { s with pending := s.pending.eraseIdx i }
    if success then
      { base with
          requests := applyAssignSuccess p.captured p.capturedPool p.rid p.mid,
          assigningId := none }
    else
      { base with error := some "Failed to assign request",
                  assigningId := none }

/-- The disabled condition of the Assign button, AdminDashboard.tsx
lines 390-397: `!!r.mechanic || r.status === 'IN_PROGRESS' ||
r.status === 'ASSIGNED' || !selection[r.requestId] ||
assigningId === r.requestId`. -/
def assignDisabled (s : AdminState) (r : RequestItem) : Bool :=
  r.mechanic.isSome ||
  r.status == "IN_PROGRESS" ||
  r.status == "ASSIGNED" ||
  (match selValue s r.requestId with
   | none => true
   | some v => v == 0) ||
  s.assigningId == some r.requestId

/-- A user click on the Assign button of the row with the given
requestId: a click on a disabled button does nothing; otherwise the
onClick handler runs assignRequest.  (If no rendered row carries the
id there is no button to click.) -/
def clickAssign (s : AdminState) (rid : Int) : AdminState :=
  match s.requests.find? (fun r => r.requestId == rid) with
  | none => s
  | some r => if assignDisabled s r then s else assignRequestStart s rid

/-- Body of the `/requests/{id}/payment-status` response as the
customer dashboard reads it: `{ isPaid, canPay }`. -/
structure PaymentStatus where
  isPaid : Bool
  canPay : Bool
deriving DecidableEq, Repr

/-- Request row as used by Dashboard.tsx (interface ServiceRequest);
only the fields the action cell reads. -/
structure ServiceRequest where
  requestId : Int
  problemType : String
  status : String
  mechanicId : Option Int
  amount : ℚ
  paid : Option Bool
deriving DecidableEq, Repr

/-- What the Action column of the customer dashboard renders for a row. -/
inductive CustomerAction where
  | ratedDisplay (rating : ℚ)
  | rateButton
  | payButton
  | inProgressLabel
  | pendingLabel
deriving DecidableEq, Repr

/-- The action-cell IIFE of Dashboard.tsx lines 434-479.
`pStatus` is `paymentStatuses[request.requestId]` (absent when the
dedicated payment-status lookup failed for the request); `ratings` is
the ratingsMap.  JavaScript truthiness: `pStatus?.isPaid` is false when
pStatus is absent; `(pStatus && pStatus.canPay)` is pStatus.canPay when
present and falsy otherwise; `ratingsMap[id] ? shown : Rate` treats a
stored rating of 0 as absent. -/
def ratedCell (req : ServiceRequest) (ratings : List (Int × ℚ)) :
    CustomerAction :=
  match ratings.lookup req.requestId with
  | some q => if q == 0 then .rateButton else .ratedDisplay q
  | none => .rateButton

/-- The branch rendered when the row is neither paid nor payable:
"In Progress" for ASSIGNED or IN_PROGRESS, "Pending Assignment"
otherwise (Dashboard.tsx lines 474-478). -/
def progressCell (req : ServiceRequest) : CustomerAction :=
  if req.status == "ASSIGNED" || req.status == "IN_PROGRESS" then
    .inProgressLabel
  else .pendingLabel

def customerAction (req : ServiceRequest) (pStatus : Option PaymentStatus)
    (ratings : List (Int × ℚ)) : CustomerAction :=
  let isPaid :=
    (match pStatus with | some p => p.isPaid | none => false) ||
    req.status == "COMPLETED" || req.status == "PAID" || req.paid.getD false
  let canPay := !isPaid &&
    ((match pStatus with | some p => p.canPay | none => false) ||
     (pStatus.isNone && req.status == "PAYMENT_PENDING"))
  if isPaid then ratedCell req ratings
  else if canPay then .payButton
  else progressCell req

/-- Job row as used by MechanicDashboard.tsx (interface AssignedJob). -/
structure AssignedJob where
  requestId : Int
  problemType : String
  location : String
  amount : ℚ
  status : String
deriving DecidableEq, Repr

/-- Whether the mechanic dashboard renders the Done button for a job:
MechanicDashboard.tsx line 248,
`(job.status === 'IN_PROGRESS' || job.status === 'ASSIGNED') && ...`. -/
def doneButtonVisible (job : AssignedJob) : Bool :=
  job.status == "IN_PROGRESS" || job.status == "ASSIGNED"

/-- Authenticated identity, authStore.ts interface User. -/
structure User where
  email : String
  name : Option String
  role : Option String
  id : Option Int
deriving DecidableEq, Repr

/-- The zustand auth store state, authStore.ts lines 11-17. -/
structure AuthState where
  isAuthenticated : Bool
  user : Option User
  token : Option String
deriving DecidableEq, Repr

/-- The logout transition, authStore.ts line 25:
`set({ isAuthenticated: false, user: null, token: null })`. -/
def logout (_ : AuthState) : AuthState :=
  { isAuthenticated := false, user := none, token := none }

/-- An axios error as the response interceptor sees it: the endpoint
the failed call targeted, and `error.response` (absent for network
errors that produced no HTTP response) with its status code. -/
structure HttpErrorResponse where
  status : Int
deriving DecidableEq, Repr

structure HttpError where
  endpoint : String
  response : Option HttpErrorResponse
deriving DecidableEq, Repr

/-- The rejection branch of the response interceptor, client.ts lines
26-34: `if (error.response?.status === 401) { useAuthStore.getState().logout(); }`
and then the error is re-rejected unchanged (teardown is a side effect
on the auth store; the caller still sees the failure).  Both revisions
of client.ts in the repository carry this identical interceptor. -/
def onResponseError (auth : AuthState) (e : HttpError) : AuthState :=
  if (match e.response with | some r => r.status == 401 | none => false) then
    logout auth
  else auth

/-! Concrete fixtures used to evaluate the definitions above on closed
inputs. -/

/-- A mechanic with a distance, for resolution scenarios. -/
def mech9 : Mechanic :=
  { id := 9, name := "M9", skillType := some "TOWING", rating := none,
    distance := some 2 }

/-- A towing request with coordinates, requestId 1. -/
def reqTow : RequestItem :=
  { requestId := 1, location := "L1", latitude := some 10,
    longitude := some 20, problemType := "TOWING", amount := 100,
    status := "CREATED", mechanic := none, mechanicId := none,
    mechanicName := none }

/-- A backend where every endpoint answers, and in particular the
center-aware nearest endpoint returns a non-empty list. -/
def envCenterOk : AdminEnv :=
  { adminRequests := .ok (some [reqTow]),
    allAvailable := .ok (some []),
    skillOnly := fun _ => .ok (some [mech9]),
    byCenter := fun _ _ _ => .ok (some [mech9]),
    plainNearest := fun _ _ _ => .error () }

/-- Mechanics with distances 5 and 5.005: closer together than the
comparator's 0.01 tie window, but not equal. -/
def mechFar : Mechanic :=
  { id := 1, name := "A", skillType := none, rating := none,
    distance := some (1001/200) }

def mechNear : Mechanic :=
  { id := 2, name := "B", skillType := none, rating := none,
    distance := some 5 }

/-- The three mechanics of the spec's ranking example:
id 1 distance 5, id 2 no distance, id 3 distance 5. -/
def mechEx1 : Mechanic :=
  { id := 1, name := "E1", skillType := none, rating := none,
    distance := some 5 }

def mechEx2 : Mechanic :=
  { id := 2, name := "E2", skillType := none, rating := none,
    distance := none }

def mechEx3 : Mechanic :=
  { id := 3, name := "E3", skillType := none, rating := none,
    distance := some 5 }

/-- A backend whose center-aware endpoint returns the near/far pair in
far-first order. -/
def envEpsilon : AdminEnv :=
  { envCenterOk with byCenter := fun _ _ _ => .ok (some [mechNear, mechFar]) }

/-- A backend whose center-aware endpoint returns the spec's ranking
example out of order. -/
def envExample : AdminEnv :=
  { envCenterOk with byCenter := fun _ _ _ => .ok (some [mechEx2, mechEx3, mechEx1]) }

/-- Chained distances 5, 5.008, 5.016 with descending ids: each
adjacent pair is inside the 0.01 tie window, the outer pair is not. -/
def mechChainA : Mechanic :=
  { id := 3, name := "CA", skillType := none, rating := none,
    distance := some 5 }

def mechChainB : Mechanic :=
  { id := 2, name := "CB", skillType := none, rating := none,
    distance := some (626/125) }

def mechChainC : Mechanic :=
  { id := 1, name := "CC", skillType := none, rating := none,
    distance := some (627/125) }

/-- Two unassigned CREATED rows. -/
def rowA : RequestItem :=
  { requestId := 1, location := "LA", latitude := none, longitude := none,
    problemType := "TOWING", amount := 100, status := "CREATED",
    mechanic := none, mechanicId := none, mechanicName := none }

def rowB : RequestItem :=
  { requestId := 2, location := "LB", latitude := none, longitude := none,
    problemType := "BATTERY", amount := 50, status := "CREATED",
    mechanic := none, mechanicId := none, mechanicName := none }

def mech10 : Mechanic :=
  { id := 10, name := "Ten", skillType := some "TOWING", rating := none,
    distance := none }

def mech20 : Mechanic :=
  { id := 20, name := "Twenty", skillType := some "BATTERY_EXPERT",
    rating := none, distance := none }

/-- Admin state right after a load: two rows, a mechanic selected in
each dropdown, nothing in flight. -/
def adminS0 : AdminState :=
  { requests := [rowA, rowB], mechanics := [mech10, mech20],
    selection := [(1, 10), (2, 20)], assigningId := none, error := none,
    pending := [], submissions := [] }

/-- A CANCELLED admin row that was previously assigned by id only. -/
def rowCancelled : RequestItem :=
  { requestId := 1, location := "LC", latitude := none, longitude := none,
    problemType := "TOWING", amount := 100, status := "CANCELLED",
    mechanic := none, mechanicId := some 7, mechanicName := none }

/-- Admin state rendering the cancelled row with a dropdown selection. -/
def adminSCancelled : AdminState :=
  { requests := [rowCancelled], mechanics := [mech10],
    selection := [(1, 5)], assigningId := none, error := none,
    pending := [], submissions := [] }

/-- A customer row whose status never reached PAYMENT_PENDING. -/
def reqCreated : ServiceRequest :=
  { requestId := 4, problemType := "FUEL", status := "CREATED",
    mechanicId := none, amount := 30, paid := some false }

/-- A payment-status lookup answer that allows paying. -/
def pstCanPay : PaymentStatus := { isPaid := false, canPay := true }

/-- The interleaved click/settle trace: assign row 1, assign row 2 while
row 1 is still in flight, then row 1 settles first. -/
def adminTrace1 : AdminState := clickAssign adminS0 1

def adminTrace2 : AdminState := clickAssign adminTrace1 2

def adminTrace3 : AdminState := settleAssign adminTrace2 0 true

def adminTrace4 : AdminState := clickAssign adminTrace3 2

/-- The same two clicks, but the promises settle in the opposite order:
row 2's commit lands first, then row 1's. -/
def adminAlt3 : AdminState := settleAssign adminTrace2 1 true

def adminAlt4 : AdminState := settleAssign adminAlt3 0 true

/-- Admin state with an assignment for row 1 in flight. -/
def adminSBusy : AdminState := { adminS0 with assigningId := some 1 }

/-- Admin state with one unsettled assignment promise for row 1. -/
def adminSPend : AdminState :=
  { adminS0 with pending := [⟨1, 10, [rowA, rowB], [mech10, mech20]⟩] }

/-- The backend of envCenterOk with the all-available mechanics fetch
failing. -/
def envMechFail : AdminEnv := { envCenterOk with allAvailable := .error () }

/-- A cancelled job in the mechanic view. -/
def jobCancelled : AssignedJob :=
  { requestId := 3, problemType := "TOWING", location := "X", amount := 10,
    status := "CANCELLED" }

/-- A cancelled request in the customer view. -/
def reqCancelledCust : ServiceRequest :=
  { requestId := 6, problemType := "TOWING", status := "CANCELLED",
    mechanicId := some 7, amount := 80, paid := none }

/-- A logged-in session. -/
def authLogged : AuthState :=
  { isAuthenticated := true,
    user := some { email := "a@b.c", name := none, role := some "ADMIN",
                   id := some 1 },
    token := some "tok" }

/-- A 401 from one endpoint and a 500 from another. -/
def err401 : HttpError := { endpoint := "/requests/me", response := some ⟨401⟩ }

def err500 : HttpError := { endpoint := "/admin/assign", response := some ⟨500⟩ }

/-! The claims. -/

/-- C10: invoking the assignment commit for a requestId with no mechanic
selected (the selection map holds no value, or the sentinel 0 produced
by the empty option) is a complete no-op: the state — request list,
error banner, in-flight marker, pending promises and the submission log
— is returned unchanged, so no network submission is issued. -/
theorem assign_without_selection_noop (s : AdminState) (rid : Int)
    (h : selValue s rid = none ∨ selValue s rid = some 0) :
    assignRequestStart s rid = s := by
  rcases h with h | h <;> simp [assignRequestStart, h]

theorem assign_without_selection_noop_witness :
    (selValue adminS0 3 = none ∧ assignRequestStart adminS0 3 = adminS0) ∧
    (selValue { adminS0 with selection := [(3, 0)] } 3 = some 0 ∧
      assignRequestStart { adminS0 with selection := [(3, 0)] } 3 =
        { adminS0 with selection := [(3, 0)] }) :=
  ⟨⟨by decide, assign_without_selection_noop adminS0 3 (Or.inl (by decide))⟩,
   ⟨by decide, assign_without_selection_noop _ 3 (Or.inr (by decide))⟩⟩

/-- C9: for every call made through the shared client — whatever the
endpoint — a 401 error response makes the response interceptor run the
auth store's logout transition, leaving isAuthenticated false and user
and token cleared; an error with any other status, or with no HTTP
response at all, leaves the auth state untouched. -/
theorem resp401_global_logout (auth : AuthState) (e : HttpError) :
    (∀ r, e.response = some r → r.status = 401 →
      onResponseError auth e =
        { isAuthenticated := false, user := none, token := none }) ∧
    (∀ r, e.response = some r → r.status ≠ 401 →
      onResponseError auth e = auth) ∧
    (e.response = none → onResponseError auth e = auth) := by
  refine ⟨?_, ?_, ?_⟩
  · intro r hr h401
    simp [onResponseError, hr, h401, logout]
  · intro r hr hne
    simp [onResponseError, hr, hne]
  · intro hr
    simp [onResponseError, hr]

theorem resp401_global_logout_witness :
    (err401.response = some ⟨401⟩ ∧
      onResponseError authLogged err401 =
        { isAuthenticated := false, user := none, token := none }) ∧
    (err500.response = some ⟨500⟩ ∧
      onResponseError authLogged err500 = authLogged) :=
  ⟨⟨rfl, (resp401_global_logout authLogged err401).1 ⟨401⟩ rfl rfl⟩,
   ⟨rfl, (resp401_global_logout authLogged err500).2.1 ⟨500⟩ rfl (by decide)⟩⟩

/-- C8: on the admin bulk load, if the mechanics fetch fails while the
requests fetch succeeds, the outcome is still the rendered page — never
the full-page error — with the (sorted) requests list applied and the
mechanics section defaulted to the empty list. -/
theorem mechanics_failure_not_fatal (env : AdminEnv)
    (rs : Option (List RequestItem))
    (hreq : env.adminRequests = .ok rs)
    (hmech : env.allAvailable = .error ()) :
    (∃ skilled, (fetchData env).2 =
      .page (jsSort reqIdDescCmp (rs.getD [])) [] skilled) ∧
    ∀ msg, (fetchData env).2 ≠ .errorPage msg := by
  constructor
  · simp only [fetchData, hreq, hmech]
    exact ⟨_, rfl⟩
  · intro msg
    simp [fetchData, hreq, hmech]

theorem mechanics_failure_not_fatal_witness :
    envMechFail.adminRequests = .ok (some [reqTow]) ∧
    envMechFail.allAvailable = .error () ∧
    ((∃ skilled, (fetchData envMechFail).2 =
        .page (jsSort reqIdDescCmp ((some [reqTow]).getD [])) [] skilled) ∧
      ∀ msg, (fetchData envMechFail).2 ≠ .errorPage msg) :=
  ⟨rfl, rfl, mechanics_failure_not_fatal envMechFail (some [reqTow]) rfl rfl⟩

/-- C1 is false as stated: in this concrete run the center-aware
nearest endpoint returns data — and its result is the one stored for
the row, with the plain-nearest endpoint indeed never called — yet the
skill-only endpoint is still called, because the initial bulk load
queries it for every distinct problem type independently of the
per-request chain. -/
theorem chain_skillOnly_called_despite_center_data :
    envCenterOk.byCenter "TOWING" 10 20 = .ok (some [mech9]) ∧
    fetchNearestMechanics envCenterOk reqTow =
      ([.byCenter "TOWING" 10 20], some ("TOWING_1", [mech9])) ∧
    Endpoint.skillOnly "TOWING" ∈ adminResolveCalls envCenterOk reqTow :=
  ⟨rfl, by decide, by decide⟩

/-- C1 amended: for a request with truthy coordinates the per-request
resolution chain is exactly center-aware nearest, then — only if the
center-aware promise rejects — plain nearest.  Any fulfilled
center-aware response terminates the chain (its array body is stored
sorted; a non-array body stores nothing), so when the center-aware
endpoint returns data the plain-nearest endpoint is never called.  The
skill-only endpoint is not a step of this chain: the initial bulk load
calls it once per distinct non-empty problem type whatever the nearest
endpoints do, and no other endpoint (and no client-side filtering step)
takes part in the load. -/
theorem resolution_chain_amended :
    (∀ (env : AdminEnv) (r : RequestItem) (lat lng : ℚ),
      r.latitude = some lat → r.longitude = some lng → lat ≠ 0 → lng ≠ 0 →
      (∀ d, env.byCenter (mapProblemTypeToSkill r.problemType) lat lng = .ok d →
        fetchNearestMechanics env r =
          ([.byCenter (mapProblemTypeToSkill r.problemType) lat lng],
            d.map (fun l => (skillKey r, jsSort mechanicCmp l)))) ∧
      (env.byCenter (mapProblemTypeToSkill r.problemType) lat lng = .error () →
        (fetchNearestMechanics env r).1 =
          [.byCenter (mapProblemTypeToSkill r.problemType) lat lng,
           .plainNearest (mapProblemTypeToSkill r.problemType) lat lng])) ∧
    (∀ (env : AdminEnv) (rs : Option (List RequestItem)),
      env.adminRequests = .ok rs →
      (fetchData env).1 =
        [.adminRequests, .allAvailable] ++
          ((jsUnique ((jsSort reqIdDescCmp (rs.getD [])).map
              (·.problemType))).filter (· ≠ "")).map
            (fun t => Endpoint.skillOnly (mapProblemTypeToSkill t))) := by
  constructor
  · intro env r lat lng hlat hlng hlat0 hlng0
    constructor
    · intro d hd
      cases d with
      | none =>
        simp [fetchNearestMechanics, hlat, hlng, truthyQ, hlat0, hlng0, hd]
      | some l =>
        simp [fetchNearestMechanics, hlat, hlng, truthyQ, hlat0, hlng0, hd]
    · intro hd
      cases h2 : env.plainNearest (mapProblemTypeToSkill r.problemType) lat lng with
      | error e =>
        simp [fetchNearestMechanics, hlat, hlng, truthyQ, hlat0, hlng0, hd, h2]
      | ok d =>
        cases d <;>
          simp [fetchNearestMechanics, hlat, hlng, truthyQ, hlat0, hlng0, hd, h2]
  · intro env rs hreq
    simp [fetchData, hreq]

theorem resolution_chain_amended_witness :
    reqTow.latitude = some 10 ∧ reqTow.longitude = some 20 ∧
    envCenterOk.byCenter (mapProblemTypeToSkill reqTow.problemType) 10 20 =
      .ok (some [mech9]) ∧
    fetchNearestMechanics envCenterOk reqTow =
      ([.byCenter (mapProblemTypeToSkill reqTow.problemType) 10 20],
        (some [mech9]).map (fun l => (skillKey reqTow, jsSort mechanicCmp l))) ∧
    envCenterOk.adminRequests = .ok (some [reqTow]) ∧
    (fetchData envCenterOk).1 =
      [.adminRequests, .allAvailable] ++
        ((jsUnique ((jsSort reqIdDescCmp ((some [reqTow]).getD [])).map
            (·.problemType))).filter (· ≠ "")).map
          (fun t => Endpoint.skillOnly (mapProblemTypeToSkill t)) :=
  ⟨rfl, rfl, rfl,
   (resolution_chain_amended.1 envCenterOk reqTow 10 20 rfl rfl
      (by decide) (by decide)).1 (some [mech9]) rfl,
   rfl,
   resolution_chain_amended.2 envCenterOk (some [reqTow]) rfl⟩

/-- C2 is false as stated: the comparator treats distances within 0.01
of each other as tied, so in this resolution the mechanic at distance
5.005 (id 1) is placed before the mechanic at distance 5 (id 2) — the
output is not ascending by distance, and the distances are not equal,
so the claimed rule would have ordered them the other way. -/
theorem ranking_not_ascending_by_distance :
    mechFar.distance = some (1001/200) ∧ mechNear.distance = some 5 ∧
    mechFar.id = 1 ∧ mechNear.id = 2 ∧ (5 : ℚ) < 1001/200 ∧
    (fetchNearestMechanics envEpsilon reqTow).2 =
      some (skillKey reqTow, [mechFar, mechNear]) := by
  refine ⟨rfl, rfl, rfl, rfl, by norm_num, ?_⟩
  have hc : ¬ mechanicCmp mechNear mechFar ≤ 0 := by
    norm_num [mechanicCmp, mechNear, mechFar, abs_lt]
  have hsort : jsSort mechanicCmp [mechNear, mechFar] = [mechFar, mechNear] := by
    simp [jsSort, jsInsert, hc]
  simp [fetchNearestMechanics, envEpsilon, envCenterOk, reqTow, truthyQ, hsort]

/-- C2 amended: resolved candidates are ordered by the code's
comparator, under which two present distances differing by at least
0.01 order ascending by distance, while distances within 0.01 of each
other count as a tie broken by ascending id; a mechanic with no
distance sorts after every mechanic with one, and the no-distance
bucket orders by ascending id.  The spec's concrete example is
unaffected: for mechanics with (id 1, distance 5), (id 2, no distance),
(id 3, distance 5) the resolved order is ids 1, 3, 2. -/
theorem ranking_rule_amended :
    (∀ a b da db, a.distance = some da → b.distance = some db →
      1/100 ≤ |da - db| → (mechanicCmp a b < 0 ↔ da < db)) ∧
    (∀ a b da db, a.distance = some da → b.distance = some db →
      |da - db| < 1/100 → (mechanicCmp a b < 0 ↔ a.id < b.id)) ∧
    (∀ a b, a.distance = none → b.distance.isSome → 0 < mechanicCmp a b) ∧
    (∀ a b, a.distance = none → b.distance = none →
      (mechanicCmp a b < 0 ↔ a.id < b.id)) ∧
    (fetchNearestMechanics envExample reqTow).2 =
      some (skillKey reqTow, [mechEx1, mechEx3, mechEx2]) := by
  refine ⟨?_, ?_, ?_, ?_, ?_⟩
  · intro a b da db ha hb hfar
    simp only [mechanicCmp, ha, hb]
    rw [if_neg (not_lt.mpr hfar), sub_neg]
  · intro a b da db ha hb hnear
    simp only [mechanicCmp, ha, hb]
    rw [if_pos hnear, sub_neg]
    exact_mod_cast Iff.rfl
  · intro a b ha hb
    rcases Option.isSome_iff_exists.mp hb with ⟨db, hdb⟩
    simp only [mechanicCmp, ha, hdb]
    norm_num
  · intro a b ha hb
    simp only [mechanicCmp, ha, hb]
    rw [sub_neg]
    exact_mod_cast Iff.rfl
  · have h31 : ¬ mechanicCmp mechEx3 mechEx1 ≤ 0 := by
      norm_num [mechanicCmp, mechEx3, mechEx1, abs_lt]
    have h21 : ¬ mechanicCmp mechEx2 mechEx1 ≤ 0 := by
      norm_num [mechanicCmp, mechEx2, mechEx1]
    have h23 : ¬ mechanicCmp mechEx2 mechEx3 ≤ 0 := by
      norm_num [mechanicCmp, mechEx2, mechEx3]
    have hsort : jsSort mechanicCmp [mechEx2, mechEx3, mechEx1] =
        [mechEx1, mechEx3, mechEx2] := by
      simp [jsSort, jsInsert, h31, h21, h23]
    simp [fetchNearestMechanics, envExample, envCenterOk, reqTow, truthyQ, hsort]

theorem ranking_rule_amended_witness :
    mechFar.distance = some (1001/200) ∧ mechNear.distance = some 5 ∧
    |(1001/200 : ℚ) - 5| < 1/100 ∧
    (mechanicCmp mechFar mechNear < 0 ↔ mechFar.id < mechNear.id) ∧
    mechEx2.distance = none ∧ mechEx1.distance.isSome ∧
    0 < mechanicCmp mechEx2 mechEx1 :=
  ⟨rfl, rfl, by rw [abs_lt]; constructor <;> norm_num,
   ranking_rule_amended.2.1 mechFar mechNear (1001/200) 5 rfl rfl
     (by rw [abs_lt]; constructor <;> norm_num),
   rfl, rfl,
   ranking_rule_amended.2.2.1 mechEx2 mechEx1 rfl rfl⟩

/-- C3 is false as stated: the comparator is not transitive.  With
distances 5 (id 3), 5.008 (id 2) and 5.016 (id 1), each adjacent pair
lies inside the 0.01 tie window and is ordered by id, while the outer
pair is ordered by distance, giving a cycle: it orders B before A and
C before B, yet A before C. -/
theorem comparator_cycle :
    mechChainA.distance = some 5 ∧ mechChainB.distance = some (626/125) ∧
    mechChainC.distance = some (627/125) ∧
    0 < mechanicCmp mechChainA mechChainB ∧
    0 < mechanicCmp mechChainB mechChainC ∧
    mechanicCmp mechChainA mechChainC < 0 := by
  refine ⟨rfl, rfl, rfl, ?_, ?_, ?_⟩ <;>
    norm_num [mechanicCmp, mechChainA, mechChainB, mechChainC, abs_lt]

/-- C3 amended: the comparator is total and pair-local — its verdict is
a function of the two inputs alone — with a consistent verdict on every
pair: it is reflexively zero and antisymmetric (cmp b a = −cmp a b).
But it is not a valid total ordering: it is not transitive, because
distances can chain inside the 0.01 tie window while the outer pair
falls outside it, producing cyclic verdicts. -/
theorem comparator_amended :
    (∀ a, mechanicCmp a a = 0) ∧
    (∀ a b, mechanicCmp b a = -mechanicCmp a b) ∧
    (∃ a b c, 0 < mechanicCmp a b ∧ 0 < mechanicCmp b c ∧
      mechanicCmp a c < 0) := by
  refine ⟨?_, ?_, ?_⟩
  · intro a
    rcases h : a.distance with _ | d
    · simp [mechanicCmp, h]
    · simp [mechanicCmp, h]
  · intro a b
    rcases ha : a.distance with _ | da <;> rcases hb : b.distance with _ | db
    · simp [mechanicCmp, ha, hb]
    · simp [mechanicCmp, ha, hb]
    · simp [mechanicCmp, ha, hb]
    · simp only [mechanicCmp, ha, hb]
      rw [abs_sub_comm db da]
      by_cases hc : |da - db| < 1/100
      · rw [if_pos hc, if_pos hc]
        ring
      · rw [if_neg hc, if_neg hc]
        ring
  · refine ⟨mechChainA, mechChainB, mechChainC, ?_, ?_, ?_⟩ <;>
      norm_num [mechanicCmp, mechChainA, mechChainB, mechChainC, abs_lt]

/-- C4 is false as stated: the in-flight marker is one global slot, not
per-request.  Click assign on row 1, then on row 2 while row 1 is in
flight (the global marker moves to 2), then let row 1's call settle —
the finally block clears the marker even though row 2's call is still
pending — and click assign on row 2 again.  The result is two network
submissions for requestId 2 while the first of them is still
unresolved. -/
theorem assign_duplicate_submission_interleaved :
    adminTrace2.submissions = [(1, 10), (2, 20)] ∧
    adminTrace4.submissions = [(1, 10), (2, 20), (2, 20)] ∧
    adminTrace4.pending.map PendingCall.rid = [2, 2] := by
  refine ⟨by decide, by decide, by decide⟩

/-- While the single in-flight marker holds a requestId, the assign
button for that requestId is disabled, so a click for it is a no-op. -/
theorem clickAssign_marker_noop (s : AdminState) (rid : Int)
    (hs : s.assigningId = some rid) : clickAssign s rid = s := by
  unfold clickAssign
  cases hf : s.requests.find? (fun r => r.requestId == rid) with
  | none => rfl
  | some r =>
    have hr := List.find?_some hf
    simp only [beq_iff_eq] at hr
    have hd : assignDisabled s r = true := by
      simp [assignDisabled, hs, hr]
    simp [hd]

/-- C4 amended: an accepted assign click sets the single global
in-flight marker to its requestId before the call is issued, and the
button's disabled check consults that marker, so a second assign action
for the same requestId issued immediately after the first — with no
other user action or completion in between — is a complete no-op: a
double click yields the same state as a single click, and one click
appends at most one submission.  The marker is one global slot, not
per-request: an accepted assign action for any request overwrites it
with that request's id, and the settling of any pending assignment —
success or failure — clears it unconditionally, so a retry is always
possible afterwards, and a duplicate submission for a request whose own
call is still in flight becomes possible as soon as another request's
assign action or any completion intervenes. -/
theorem assign_inflight_amended :
    (∀ (s : AdminState) (rid : Int),
      clickAssign (clickAssign s rid) rid = clickAssign s rid) ∧
    (∀ (s : AdminState) (rid : Int),
      (clickAssign s rid).submissions = s.submissions ∨
      ∃ mid, selValue s rid = some mid ∧
        (clickAssign s rid).submissions = s.submissions ++ [(rid, mid)]) ∧
    (∀ (s : AdminState) (rid : Int), s.assigningId = some rid →
      clickAssign s rid = s) ∧
    (∀ (s : AdminState) (rid mid : Int), selValue s rid = some mid →
      mid ≠ 0 → (assignRequestStart s rid).assigningId = some rid) ∧
    (∀ (s : AdminState) (i : Nat) (p : PendingCall) (b : Bool),
      s.pending[i]? = some p → (settleAssign s i b).assigningId = none) := by
  refine ⟨?_, ?_, ?_, ?_, ?_⟩
  · intro s rid
    cases hf : s.requests.find? (fun r => r.requestId == rid) with
    | none => simp [clickAssign, hf]
    | some r =>
      by_cases hd : assignDisabled s r = true
      · simp [clickAssign, hf, hd]
      · cases hsel : selValue s rid with
        | none => simp [clickAssign, assignRequestStart, hf, hd, hsel]
        | some mid =>
          by_cases hmid : mid = 0
          · subst hmid
            simp [clickAssign, assignRequestStart, hf, hd, hsel]
          · have h1 : clickAssign s rid =
                { s with
                    assigningId := some rid,
                    pending := s.pending ++ [⟨rid, mid, s.requests, s.mechanics⟩],
                    submissions := s.submissions ++ [(rid, mid)] } := by
              simp [clickAssign, assignRequestStart, hf, hd, hsel, hmid]
            rw [h1]
            exact clickAssign_marker_noop _ rid rfl
  · intro s rid
    cases hf : s.requests.find? (fun r => r.requestId == rid) with
    | none => exact Or.inl (by simp [clickAssign, hf])
    | some r =>
      by_cases hd : assignDisabled s r = true
      · exact Or.inl (by simp [clickAssign, hf, hd])
      · cases hsel : selValue s rid with
        | none =>
          exact Or.inl (by simp [clickAssign, assignRequestStart, hf, hd, hsel])
        | some mid =>
          by_cases hmid : mid = 0
          · refine Or.inl ?_
            subst hmid
            simp [clickAssign, assignRequestStart, hf, hd, hsel]
          · exact Or.inr ⟨mid, rfl,
              by simp [clickAssign, assignRequestStart, hf, hd, hsel, hmid]⟩
  · intro s rid hs
    exact clickAssign_marker_noop s rid hs
  · intro s rid mid hsel hmid
    simp [assignRequestStart, hsel, hmid]
  · intro s i p b hp
    cases b <;> simp [settleAssign, hp]

theorem assign_inflight_amended_witness :
    clickAssign (clickAssign adminS0 1) 1 = clickAssign adminS0 1 ∧
    adminSBusy.assigningId = some 1 ∧ clickAssign adminSBusy 1 = adminSBusy ∧
    selValue adminS0 1 = some 10 ∧
    (assignRequestStart adminS0 1).assigningId = some 1 ∧
    adminSPend.pending[0]? = some ⟨1, 10, [rowA, rowB], [mech10, mech20]⟩ ∧
    (settleAssign adminSPend 0 false).assigningId = none :=
  ⟨assign_inflight_amended.1 adminS0 1, rfl,
   assign_inflight_amended.2.2.1 adminSBusy 1 rfl, rfl,
   assign_inflight_amended.2.2.2.1 adminS0 1 10 rfl (by decide), rfl,
   assign_inflight_amended.2.2.2.2 adminSPend 0
     ⟨1, 10, [rowA, rowB], [mech10, mech20]⟩ false rfl⟩

/-- C5 is false as stated: a successful commit maps over the request
list captured when its click happened, not the current one, so it does
not merge with updates that landed in between.  Assign rows 1 and 2
concurrently; row 2's commit settles first and marks row 2
IN_PROGRESS; when row 1's commit then settles successfully, row 2 —
a request other than the targeted one — is reverted to its captured
CREATED state. -/
theorem assign_success_overwrites_other_row :
    adminAlt3.requests.map (fun r => (r.requestId, r.status)) =
      [(1, "CREATED"), (2, "IN_PROGRESS")] ∧
    adminAlt4.requests.map (fun r => (r.requestId, r.status)) =
      [(1, "IN_PROGRESS"), (2, "CREATED")] ∧
    adminAlt4.pending = [] := by
  refine ⟨by decide, by decide, by decide⟩

/-- C5 amended: a successful commit replaces the request list with the
requestId-keyed merge computed over the list and mechanic pool captured
when that assignment was initiated: every captured row carrying the
target requestId gets its mechanic reference set to the pool lookup (or
none when absent) and its status set to IN_PROGRESS, every other
captured row keeps its captured value — so in particular, when no other
update landed in between, exactly the targeted rows change.  A failed
commit leaves the request list untouched and surfaces the recoverable
error banner instead. -/
theorem assign_commit_amended :
    (∀ (reqs : List RequestItem) (pool : List Mechanic) (rid mid : Int),
      (applyAssignSuccess reqs pool rid mid).length = reqs.length) ∧
    (∀ (reqs : List RequestItem) (pool : List Mechanic) (rid mid : Int)
      (i : Nat) (r : RequestItem), reqs[i]? = some r →
      (applyAssignSuccess reqs pool rid mid)[i]? =
        some (if r.requestId = rid then
          { r with mechanic := pool.find? (fun m => m.id == mid),
                   status := "IN_PROGRESS" }
        else r)) ∧
    (∀ (s : AdminState) (i : Nat) (p : PendingCall),
      s.pending[i]? = some p →
      (settleAssign s i true).requests =
        applyAssignSuccess p.captured p.capturedPool p.rid p.mid ∧
      (settleAssign s i true).error = s.error) ∧
    (∀ (s : AdminState) (i : Nat) (p : PendingCall),
      s.pending[i]? = some p →
      (settleAssign s i false).requests = s.requests ∧
      (settleAssign s i false).error = some "Failed to assign request") := by
  refine ⟨?_, ?_, ?_, ?_⟩
  · intro reqs pool rid mid
    simp [applyAssignSuccess]
  · intro reqs pool rid mid i r hr
    simp only [applyAssignSuccess, List.getElem?_map, hr, Option.map_some]
    by_cases h : r.requestId = rid
    · simp [h]
    · simp [h]
  · intro s i p hp
    simp [settleAssign, hp]
  · intro s i p hp
    simp [settleAssign, hp]

theorem assign_commit_amended_witness :
    [rowA, rowB][1]? = some rowB ∧
    ((applyAssignSuccess [rowA, rowB] [mech10, mech20] 1 10)[1]? =
      some (if rowB.requestId = 1 then
        { rowB with mechanic := [mech10, mech20].find? (fun m => m.id == 10),
                    status := "IN_PROGRESS" }
      else rowB)) ∧
    adminSPend.pending[0]? = some ⟨1, 10, [rowA, rowB], [mech10, mech20]⟩ ∧
    (settleAssign adminSPend 0 false).requests = adminSPend.requests ∧
    (settleAssign adminSPend 0 false).error = some "Failed to assign request" :=
  ⟨rfl,
   assign_commit_amended.2.1 [rowA, rowB] [mech10, mech20] 1 10 1 rowB rfl,
   rfl,
   (assign_commit_amended.2.2.2 adminSPend 0
     ⟨1, 10, [rowA, rowB], [mech10, mech20]⟩ rfl).1,
   (assign_commit_amended.2.2.2 adminSPend 0
     ⟨1, 10, [rowA, rowB], [mech10, mech20]⟩ rfl).2⟩

/-- When the isPaid accumulator holds, the cell shows the stored rating
or the Rate button — never Pay. -/
theorem ratedCell_ne_payButton (req : ServiceRequest)
    (ratings : List (Int × ℚ)) : ratedCell req ratings ≠ .payButton := by
  unfold ratedCell
  split
  · split <;> simp
  · simp

/-- The neither-paid-nor-payable branch never shows Pay. -/
theorem progressCell_ne_payButton (req : ServiceRequest) :
    progressCell req ≠ .payButton := by
  unfold progressCell
  split <;> simp

/-- The customer action cell renders the Pay button exactly when the
isPaid accumulator computes to false and the raw canPay disjunction to
true. -/
theorem customerAction_eq_payButton (req : ServiceRequest)
    (pst : Option PaymentStatus) (ratings : List (Int × ℚ)) :
    customerAction req pst ratings = .payButton ↔
      ((match pst with | some p => p.isPaid | none => false) ||
          req.status == "COMPLETED" || req.status == "PAID" ||
          req.paid.getD false) = false ∧
        ((match pst with | some p => p.canPay | none => false) ||
          (pst.isNone && req.status == "PAYMENT_PENDING")) = true := by
  rcases pst with _ | p
  · simp only [customerAction, Option.isNone_none, Bool.false_or, Bool.true_and]
    by_cases hA : (req.status == "COMPLETED" || req.status == "PAID" ||
        req.paid.getD false) = true
    · simp [hA, ratedCell_ne_payButton]
    · rw [Bool.not_eq_true] at hA
      by_cases hPP : (req.status == "PAYMENT_PENDING") = true
      · simp [hA, hPP]
      · rw [Bool.not_eq_true] at hPP
        simp [hA, hPP, progressCell_ne_payButton]
  · simp only [customerAction, Option.isNone_some, Bool.and_false,
      Bool.false_and, Bool.or_false]
    by_cases hA : (p.isPaid || req.status == "COMPLETED" ||
        req.status == "PAID" || req.paid.getD false) = true
    · simp [hA, ratedCell_ne_payButton]
    · rw [Bool.not_eq_true] at hA
      cases hcp : p.canPay
      · simp [hA, hcp, progressCell_ne_payButton]
      · simp [hA, hcp]

/-- C6 is false as stated: the admin assign control's disabled
condition never consults CANCELLED status.  For this CANCELLED request
— whose mechanicId is even still set — with a mechanic selected in the
dropdown and nothing in flight, the assign button is enabled and
clicking it issues a network submission. -/
theorem cancelled_assign_still_offered :
    rowCancelled.status = "CANCELLED" ∧ rowCancelled.mechanicId = some 7 ∧
    assignDisabled adminSCancelled rowCancelled = false ∧
    (clickAssign adminSCancelled 1).submissions = [(1, 5)] ∧
    (clickAssign adminSCancelled 1).assigningId = some 1 :=
  ⟨rfl, rfl, by decide, by decide, by decide⟩

/-- C6 amended: a CANCELLED request never renders the mechanic Done
button; it renders the customer Pay button only if the dedicated
payment-status lookup is present and explicitly reports canPay (with no
payment indicator recorded) — never on status grounds; but in the admin
view CANCELLED status itself does not disable the assign control: for a
CANCELLED request the control is disabled exactly when a mechanic
reference is attached, the dropdown selection is absent or the sentinel
0, or that request's assignment is in flight, so a CANCELLED request
with no attached mechanic and a live selection still offers assign. -/
theorem cancelled_gating_amended :
    (∀ (job : AssignedJob), job.status = "CANCELLED" →
      doneButtonVisible job = false) ∧
    (∀ (req : ServiceRequest) (pst : Option PaymentStatus)
      (ratings : List (Int × ℚ)), req.status = "CANCELLED" →
      (pst = none ∨ ∃ p, pst = some p ∧ p.canPay = false) →
      customerAction req pst ratings ≠ .payButton) ∧
    (∀ (s : AdminState) (r : RequestItem), r.status = "CANCELLED" →
      (assignDisabled s r = true ↔
        (r.mechanic.isSome = true ∨
          (selValue s r.requestId = none ∨ selValue s r.requestId = some 0) ∨
          s.assigningId = some r.requestId))) := by
  refine ⟨?_, ?_, ?_⟩
  · intro job hj
    simp [doneButtonVisible, hj]
  · intro req pst ratings hst hpst
    rw [Ne, customerAction_eq_payButton]
    rintro ⟨-, hB⟩
    rcases hpst with hnone | ⟨p, hp, hcp⟩
    · rw [hnone, hst] at hB
      exact absurd hB (by decide)
    · rw [hp, hst] at hB
      simp [hcp] at hB
  · intro s r hst
    simp only [assignDisabled, hst]
    constructor
    · intro h
      simp only [Bool.or_eq_true, beq_iff_eq] at h
      rcases h with ((((hm | h1) | h2) | hsel) | hin)
      · exact Or.inl hm
      · exact absurd h1 (by decide)
      · exact absurd h2 (by decide)
      · refine Or.inr (Or.inl ?_)
        rcases hv : selValue s r.requestId with _ | v
        · exact Or.inl rfl
        · rw [hv] at hsel
          simp only [beq_iff_eq] at hsel
          exact Or.inr (by rw [hsel])
      · exact Or.inr (Or.inr hin)
    · intro h
      simp only [Bool.or_eq_true, beq_iff_eq]
      rcases h with hm | (hsel | hsel) | hin
      · exact Or.inl (Or.inl (Or.inl (Or.inl hm)))
      · refine Or.inl (Or.inr ?_)
        rw [hsel]
      · refine Or.inl (Or.inr ?_)
        rw [hsel]
        rfl
      · exact Or.inr hin

theorem cancelled_gating_amended_witness :
    jobCancelled.status = "CANCELLED" ∧
    doneButtonVisible jobCancelled = false ∧
    reqCancelledCust.status = "CANCELLED" ∧
    customerAction reqCancelledCust none [] ≠ .payButton ∧
    (assignDisabled adminSCancelled rowCancelled = true ↔
      (rowCancelled.mechanic.isSome = true ∨
        (selValue adminSCancelled rowCancelled.requestId = none ∨
          selValue adminSCancelled rowCancelled.requestId = some 0) ∨
        adminSCancelled.assigningId = some rowCancelled.requestId)) :=
  ⟨rfl, cancelled_gating_amended.1 jobCancelled rfl, rfl,
   cancelled_gating_amended.2.1 reqCancelledCust none [] rfl (Or.inl rfl),
   cancelled_gating_amended.2.2 adminSCancelled rowCancelled rfl⟩

/-- C7 is false as stated: when the dedicated payment-status lookup is
available it is authoritative regardless of the status string, so for
this request whose status is CREATED — not PAYMENT_PENDING — and whose
lookup answers isPaid false, canPay true, the Pay action is rendered. -/
theorem pay_shown_despite_not_payment_pending :
    reqCreated.status = "CREATED" ∧
    pstCanPay = { isPaid := false, canPay := true } ∧
    customerAction reqCreated (some pstCanPay) [] = .payButton :=
  ⟨rfl, rfl, by decide⟩

/-- C7 amended: the Pay action is rendered for a request exactly when
no payment indicator is recorded for it (the lookup's isPaid, a
COMPLETED or PAID status string, or the row's paid flag) and either the
dedicated payment-status lookup is available and reports canPay — in
which case it is authoritative and the status string is not consulted —
or the lookup is unavailable and the status is exactly
PAYMENT_PENDING. -/
theorem pay_gating_amended (req : ServiceRequest) (pst : Option PaymentStatus)
    (ratings : List (Int × ℚ)) :
    customerAction req pst ratings = .payButton ↔
      (¬ ((∃ p, pst = some p ∧ p.isPaid = true) ∨ req.status = "COMPLETED" ∨
          req.status = "PAID" ∨ req.paid = some true) ∧
        ((∃ p, pst = some p ∧ p.canPay = true) ∨
          (pst = none ∧ req.status = "PAYMENT_PENDING"))) := by
  rw [customerAction_eq_payButton]
  rcases pst with _ | p <;> rcases hpd : req.paid with _ | b <;>
    simp [hpd, Bool.or_eq_false_iff, Bool.and_eq_true, beq_iff_eq,
      beq_eq_false_iff_ne] <;>
    tauto
